import Mathlib

/-!
Shallow embedding of the MotionBlur EGL-hook render engine.

Sources embedded:
* `src/src/main.cpp` — the primary variant: globals `rawTex, rawFBO, histTex[2],
  histFBO[2], vao, progBlur, progDraw, ping, iW, iH, sW, sH`, the functions
  `initGL`, `render`, and the `eglSwapBuffers` interceptor `hook`.
* `src/unnamed/part_001` (second translation unit) — the simple-blend variant:
  globals `rawTexture, historyTextures[2], historyFBOs[2], pingPongIndex,
  isFirstFrame, savedWidth, savedHeight, internalW, internalH`, the functions
  `initResources` and `render_effect`.
* the sharpening step of the `frag_draw` fragment shader of `src/src/main.cpp`,
  modelled over `ℚ` with the GLSL `sqrt` primitive as an oracle parameter.

Modelling conventions.  GL object creation (`glCreateShader`, `glCreateProgram`,
`glGenTextures`, `glGenFramebuffers`, `glGenVertexArrays`, `glGenBuffers`) is a
fresh-handle allocator: each call hands out the next id from a counter `nextId`
(ids start at 1, so every handle the driver returns is nonzero).  Calls whose
only effect is on driver-internal state that the program never reads back
(`glTexParameteri`, `glBufferData`, `glDisable`, viewport and texture-unit
binds) are not given state; what the per-frame code binds and draws is instead
recorded in an observation record (`FrameInfo` / `VFrameInfo`).  Instrumentation
counters (`allocs`, `releases`, `initCalls`, `renderCalls`) count observable
driver calls and are not part of the C++ state.  Failure of the GPU driver is
an oracle: `initGL` takes `allocOK` (would `glCheckFramebufferStatus` report
complete?) and `linkOK` (did the shader programs compile and link?); the C++
code never queries either status, and accordingly no definition below branches
on them — they are only recorded (`fbComplete`, `progLinkOK`).
-/

namespace MotionBlur

/-- GL object handles (`GLuint`); 0 is the reserved "no object" id. -/
abbrev GLuint := Nat

/-- Truncating halving, as the C expression `(int)(w*SCALE)` with
`SCALE = 0.5f` computes it: the product is exact in binary32 for `|w| < 2^24`
and the cast truncates toward zero. -/
def cHalf (x : Int) : Int := if 0 ≤ x then x / 2 else -((-x) / 2)

/-- Global mutable state of `src/src/main.cpp` (lines 125–127), plus the
fresh-handle counter and the instrumentation described in the file header. -/
structure Engine where
  rawTex : GLuint
  rawFBO : GLuint
  histTex : List GLuint
  histFBO : List GLuint
  vao : GLuint
  progBlur : GLuint
  progDraw : GLuint
  ping : Int
  iW : Int
  iH : Int
  sW : Int
  sH : Int
  nextId : Nat
  fbComplete : Bool
  progLinkOK : Bool
  allocs : Nat
  releases : Nat
  initCalls : Nat
  renderCalls : Nat
  deriving Repr, DecidableEq

/-- Initial values of the globals (`=0` initializers, line 125–127 of
`src/src/main.cpp`); handle counter starts at 1. -/
def engineInit : Engine :=
  { rawTex := 0, rawFBO := 0, histTex := [0, 0], histFBO := [0, 0], vao := 0
    progBlur := 0, progDraw := 0, ping := 0, iW := 0, iH := 0, sW := 0, sH := 0
    nextId := 1, fbComplete := true, progLinkOK := true
    allocs := 0, releases := 0, initCalls := 0, renderCalls := 0 }

/-- Embedding of `initGL(int w, int h)` (`src/src/main.cpp` lines 129–166).
Fresh ids are handed out in source order: shaders `vs, fs1, fs2` get
`n, n+1, n+2`; `progBlur` gets `n+3`, `progDraw` gets `n+4`; `vao` gets `n+5`,
the two buffers `n+6, n+7`; then `rawTex, rawFBO, histTex[0], histFBO[0],
histTex[1], histFBO[1]` get `n+8 … n+13`.  `allocOK` is the driver oracle for
the three `glTexImage2D` allocations (recorded, never read by the code);
`linkOK` for the compile/link of both programs (recorded, never read). -/
def initGL (allocOK linkOK : Bool) (st0 : Engine) (w h : Int) : Engine :=
  -- if(rawTex){glDeleteTextures…; glDeleteFramebuffers…; glDeleteVertexArrays…;}
  let st :=
    if st0.rawTex ≠ 0 then
      { st0 with rawTex := 0, rawFBO := 0, histTex := [0, 0], histFBO := [0, 0]
                 vao := 0, releases := st0.releases + 1 }
    else st0
  let n := st.nextId
  -- iW=(int)(w*SCALE); iH=(int)(h*SCALE);
  -- shader compilation and linking: ids n..n+4; geometry setup: ids n+5..n+7;
  -- texture setup t(rawTex,rawFBO); t(histTex[0],histFBO[0]); t(histTex[1],histFBO[1]);
  -- clear both history buffers; sW=w; sH=h;
  { st with
    iW := cHalf w, iH := cHalf h
    progBlur := n + 3, progDraw := n + 4, progLinkOK := linkOK
    vao := n + 5
    rawTex := n + 8, rawFBO := n + 9
    histTex := [n + 10, n + 12], histFBO := [n + 11, n + 13]
    fbComplete := allocOK
    sW := w, sH := h
    nextId := n + 14
    allocs := st.allocs + 3
    initCalls := st.initCalls + 1 }

/-- Observation record of one execution of `render` (`src/src/main.cpp`
lines 168–194): which buffers and programs the frame bound and drew with. -/
structure FrameInfo where
  /-- did this call run `initGL` (line 169)? -/
  didInit : Bool
  /-- `int cur=ping` (line 180). -/
  cur : Int
  /-- `int pre=1-ping` (line 180). -/
  pre : Int
  /-- index of the history slot bound as write target of the blur
  (accumulation) pass: `glBindFramebuffer(GL_FRAMEBUFFER,histFBO[cur])`. -/
  accumWriteSlot : Int
  /-- index of the history slot bound as texture unit 1 (read) of the blur
  pass: `glBindTexture(GL_TEXTURE_2D,histTex[pre])`. -/
  accumReadSlot : Int
  /-- handle bound as texture unit 0 (read) of the blur pass: `rawTex`. -/
  accumReadRaw : GLuint
  /-- program in use for the blur pass: `progBlur`. -/
  accumProgram : GLuint
  /-- was the blur-pass draw call issued (line 185)?  Unconditional in the
  source. -/
  accumDrawn : Bool
  /-- index of the history slot bound as the read input of the output pass:
  `glBindTexture(GL_TEXTURE_2D,histTex[cur])` (line 190). -/
  outputReadSlot : Int
  /-- was the output-pass draw to framebuffer 0 issued (line 191)?
  Unconditional in the source. -/
  outputDrawn : Bool
  deriving Repr, DecidableEq

/-- Embedding of `render(int w, int h)` (`src/src/main.cpp` lines 168–194),
returning the successor state together with the frame observation. -/
def renderFrame (allocOK linkOK : Bool) (st0 : Engine) (w h : Int) :
    Engine × FrameInfo :=
  -- if(w!=sW || h!=sH || !rawTex) initGL(w,h);
  let didInit : Bool := w ≠ st0.sW ∨ h ≠ st0.sH ∨ st0.rawTex = 0
  let st := if didInit then initGL allocOK linkOK st0 w h else st0
  -- glDisable(GL_SCISSOR_TEST); glDisable(GL_DEPTH_TEST); glDisable(GL_BLEND);
  -- glBlitFramebuffer(0,0,w,h,0,0,iW,iH,…)  (downscale copy into rawFBO)
  -- int cur=ping, pre=1-ping;
  let cur := st.ping
  let pre := 1 - st.ping
  ({ st with ping := pre, renderCalls := st.renderCalls + 1 },
   { didInit := didInit
     cur := cur, pre := pre
     accumWriteSlot := cur, accumReadSlot := pre
     accumReadRaw := st.rawTex, accumProgram := st.progBlur
     accumDrawn := true
     outputReadSlot := cur, outputDrawn := true })

/-- Embedding of the interceptor `hook(EGLDisplay d, EGLSurface s)`
(`src/src/main.cpp` lines 200–204).  The EGL environment is abstract:
`query d s` returns the `EGL_WIDTH`/`EGL_HEIGHT` pair `eglQuerySurface`
writes, and `orig` is the saved original `eglSwapBuffers` pointer. -/
def hook {D S B : Type} (query : D → S → Int × Int) (orig : D → S → B)
    (allocOK linkOK : Bool) (st : Engine) (d : D) (s : S) : Engine × B :=
  let w := (query d s).1
  let h := (query d s).2
  -- if(w>100) render(w,h);
  let st2 := if w > 100 then (renderFrame allocOK linkOK st w h).1 else st
  -- return orig(d,s);
  (st2, orig d s)

/-- One render invocation of the engine, with the driver oracle for that
call; used to describe arbitrary reachable states. -/
structure Call where
  allocOK : Bool
  linkOK : Bool
  w : Int
  h : Int

/-- State after executing a list of render calls (most recent first)
starting from `engineInit`. -/
def runCalls : List Call → Engine
  | [] => engineInit
  | c :: rest => (renderFrame c.allocOK c.linkOK (runCalls rest) c.w c.h).1

/-- State after `n` render calls at fixed size `(w,h)` with a healthy driver,
starting from `engineInit`. -/
def runFrames (w h : Int) : Nat → Engine
  | 0 => engineInit
  | n + 1 => (renderFrame true true (runFrames w h n) w h).1

/-- Observation of frame number `k` (0-based) of the run at fixed size. -/
def frameInfoAt (w h : Int) (k : Nat) : FrameInfo :=
  (renderFrame true true (runFrames w h k) w h).2

/-! ### Simple-blend variant (`src/unnamed/part_001`, second translation unit)

Globals of its section 3, `initResources` (section 4) and `render_effect`
(section 5).  The same fresh-handle-allocator convention is used. -/

/-- Global mutable state of the simple-blend variant. -/
structure VEngine where
  rawTexture : GLuint
  rawFBO : GLuint
  historyTextures : List GLuint
  historyFBOs : List GLuint
  vao : GLuint
  blendProgram : GLuint
  drawProgram : GLuint
  pingPongIndex : Int
  isFirstFrame : Bool
  savedWidth : Int
  savedHeight : Int
  internalW : Int
  internalH : Int
  nextId : Nat
  allocs : Nat
  deriving Repr, DecidableEq

/-- Initial values of the variant's globals. -/
def vengineInit : VEngine :=
  { rawTexture := 0, rawFBO := 0, historyTextures := [0, 0], historyFBOs := [0, 0]
    vao := 0, blendProgram := 0, drawProgram := 0
    pingPongIndex := 0, isFirstFrame := true
    savedWidth := 0, savedHeight := 0, internalW := 0, internalH := 0
    nextId := 1, allocs := 0 }

/-- Embedding of `initResources(int width, int height)` (`src/unnamed/part_001`
lines 306–370).  Fresh ids in source order: shaders `vs, fsBlend, fsDraw` get
`n, n+1, n+2`; `blendProgram` `n+3`, `drawProgram` `n+4`; `vao, vbo, ibo`
`n+5, n+6, n+7`; then `rawTexture, rawFBO, historyTextures[0], historyFBOs[0],
historyTextures[1], historyFBOs[1]` get `n+8 … n+13`.  The tail of the source
sets `savedWidth/savedHeight` and `isFirstFrame = true`. -/
def initResources (st0 : VEngine) (width height : Int) : VEngine :=
  let st :=
    if st0.rawTexture ≠ 0 then
      { st0 with rawTexture := 0, rawFBO := 0
                 historyTextures := [0, 0], historyFBOs := [0, 0], vao := 0 }
    else st0
  let n := st.nextId
  { st with
    internalW := cHalf width, internalH := cHalf height
    blendProgram := n + 3, drawProgram := n + 4
    vao := n + 5
    rawTexture := n + 8, rawFBO := n + 9
    historyTextures := [n + 10, n + 12], historyFBOs := [n + 11, n + 13]
    savedWidth := width, savedHeight := height
    isFirstFrame := true
    nextId := n + 14
    allocs := st.allocs + 3 }

/-- Observation record of one execution of `render_effect`. -/
structure VFrameInfo where
  /-- did this call run `initResources` (line 377)? -/
  didInit : Bool
  /-- `int curr = pingPongIndex` (line 389). -/
  curr : Int
  /-- `int prev = 1 - pingPongIndex` (line 390). -/
  prev : Int
  /-- history slot bound as the write target of the pass into history
  (`historyFBOs[curr]` in both branches). -/
  writeSlot : Int
  /-- program used for the pass into history: `drawProgram` on the
  first-frame branch, `blendProgram` otherwise. -/
  passProgram : GLuint
  /-- did the pass into history use `blendProgram` (the else branch)? -/
  usedBlend : Bool
  /-- did the pass into history bind `historyTextures[prev]` as an input?
  Only the blend branch does. -/
  readsHistory : Bool
  /-- texture bound on unit 0 of the pass into history: `rawTexture`. -/
  passSrcTex : GLuint
  /-- history slot read by the final upscale draw to the screen:
  `historyTextures[curr]` (line 417). -/
  outputReadSlot : Int
  deriving Repr, DecidableEq

/-- Embedding of `render_effect(int width, int height)`
(`src/unnamed/part_001` lines 376–423). -/
def render_effect (st0 : VEngine) (width height : Int) : VEngine × VFrameInfo :=
  -- if (width != savedWidth || height != savedHeight || rawTexture == 0) initResources(…);
  let didInit : Bool :=
    width ≠ st0.savedWidth ∨ height ≠ st0.savedHeight ∨ st0.rawTexture = 0
  let s1 := if didInit then initResources st0 width height else st0
  -- downscale blit into rawFBO; int curr = pingPongIndex; int prev = 1 - pingPongIndex;
  let curr := s1.pingPongIndex
  let prev := 1 - s1.pingPongIndex
  if s1.isFirstFrame then
    -- draw rawTexture into historyFBOs[curr] with drawProgram; isFirstFrame = false;
    ({ s1 with isFirstFrame := false, pingPongIndex := prev },
     { didInit := didInit, curr := curr, prev := prev
       writeSlot := curr, passProgram := s1.drawProgram
       usedBlend := false, readsHistory := false, passSrcTex := s1.rawTexture
       outputReadSlot := curr })
  else
    -- blend rawTexture with historyTextures[prev] into historyFBOs[curr];
    ({ s1 with pingPongIndex := prev },
     { didInit := didInit, curr := curr, prev := prev
       writeSlot := curr, passProgram := s1.blendProgram
       usedBlend := true, readsHistory := true, passSrcTex := s1.rawTexture
       outputReadSlot := curr })

/-- State after `n` further `render_effect` calls at fixed size, starting
from `st`. -/
def vRunFrom (st : VEngine) (width height : Int) : Nat → VEngine
  | 0 => st
  | n + 1 => (render_effect (vRunFrom st width height n) width height).1

/-! ### Sharpening step of the output shader (`frag_draw`, `src/src/main.cpp`
lines 71–105)

Shader arithmetic is modelled over `ℚ`.  The five texel fetches (`texture` at
`v` and the four `textureOffset` neighbours) are inputs; the GLSL `sqrt`
primitive is an oracle parameter (its value on `[0,1]` lies in `[0,1]`, which
is the only property any proof uses). -/

/-- RGBA color sample. -/
structure Vec4 where
  r : ℚ
  g : ℚ
  b : ℚ
  a : ℚ
  deriving Repr, DecidableEq

/-- GLSL `dot(col.rgb, vec3(0.299, 0.587, 0.114))` — the luma used throughout
both fragment shaders. -/
def lumaOf (c : Vec4) : ℚ :=
  c.r * (299/1000) + c.g * (587/1000) + c.b * (114/1000)

/-- GLSL `mix(x, y, t) = x*(1-t) + y*t`. -/
def glslMix (x y t : ℚ) : ℚ := x * (1 - t) + y * t

/-- GLSL `clamp(x, lo, hi) = min(max(x, lo), hi)`. -/
def glslClamp (x lo hi : ℚ) : ℚ := min (max x lo) hi

/-- Sharpened luma of the CAS step (`frag_draw` lines 88–102): inputs are the
lumas already computed from the five samples.  `sqrtQ` is the GLSL `sqrt`
oracle. -/
def sharpLumaOf (sqrtQ : ℚ → ℚ) (lC lN lS lE lW : ℚ) : ℚ :=
  let mx := max lC (max (max lN lS) (max lE lW))
  let mn := min lC (min (min lN lS) (min lE lW))
  let amt := sqrtQ (glslClamp (mn / (1 - mx + 1/1000)) 0 1)
  let peak := -1 / glslMix 8 5 (amt * (88/100))
  let sharpLuma := lC + (lN + lS + lE + lW) * peak
  sharpLuma / (1 + 4 * peak)

/-- Color after the sharpening step of `frag_draw` (lines 79–105): the five
texel samples are `col` (center), `n`, `s`, `e`, `w`; the luma delta
`sharpLuma - lC` is added to `col.rgb`. -/
def sharpenStep (sqrtQ : ℚ → ℚ) (col n s e w : Vec4) : Vec4 :=
  let lC := lumaOf col
  let sharpLuma :=
    sharpLumaOf sqrtQ lC (lumaOf n) (lumaOf s) (lumaOf e) (lumaOf w)
  { r := col.r + (sharpLuma - lC)
    g := col.g + (sharpLuma - lC)
    b := col.b + (sharpLuma - lC)
    a := col.a }

/-! ### Basic lemmas about the primary engine -/

/-- Re-initialization (`initGL`) never touches the ping index: no statement in
`initGL` (`src/src/main.cpp` lines 129–166) assigns `ping`. -/
theorem initGL_ping (a l : Bool) (st : Engine) (w h : Int) :
    (initGL a l st w h).ping = st.ping := by
  unfold initGL
  by_cases hr : st.rawTex ≠ 0 <;> simp [hr]

/-- After `initGL`, the stored size is the requested size and the raw texture
handle is the (nonzero) freshly generated id. -/
theorem initGL_establishes (a l : Bool) (st : Engine) (w h : Int) :
    (initGL a l st w h).sW = w ∧ (initGL a l st w h).sH = h ∧
      (initGL a l st w h).rawTex ≠ 0 := by
  unfold initGL
  by_cases hr : st.rawTex ≠ 0 <;> simp [hr]

/-- Every `render` call leaves the engine with `sW = w`, `sH = h`, and a
nonzero `rawTex`: either `initGL` just ran, or the size check guaranteed the
state already satisfied this. -/
theorem renderFrame_establishes (a l : Bool) (st : Engine) (w h : Int) :
    (renderFrame a l st w h).1.sW = w ∧ (renderFrame a l st w h).1.sH = h ∧
      (renderFrame a l st w h).1.rawTex ≠ 0 := by
  unfold renderFrame
  by_cases hc : w ≠ st.sW ∨ h ≠ st.sH ∨ st.rawTex = 0
  · simpa [hc] using initGL_establishes a l st w h
  · push_neg at hc
    simp [hc.1.symm, hc.2.1.symm, hc.2.2]

/-- The ping index flips exactly once per `render` call (`ping=pre` at line
193), independently of whether `initGL` ran. -/
theorem renderFrame_ping (a l : Bool) (st : Engine) (w h : Int) :
    (renderFrame a l st w h).1.ping = 1 - st.ping := by
  unfold renderFrame
  by_cases hc : w ≠ st.sW ∨ h ≠ st.sH ∨ st.rawTex = 0 <;>
    simp [hc, initGL_ping]

/-- Re-initialization does not issue a render call (instrumentation). -/
theorem initGL_renderCalls (a l : Bool) (st : Engine) (w h : Int) :
    (initGL a l st w h).renderCalls = st.renderCalls := by
  unfold initGL
  by_cases hr : st.rawTex ≠ 0 <;> simp [hr]

/-- Each `render` call increments the render-call counter by exactly one. -/
theorem renderFrame_renderCalls (a l : Bool) (st : Engine) (w h : Int) :
    (renderFrame a l st w h).1.renderCalls = st.renderCalls + 1 := by
  unfold renderFrame
  by_cases hc : w ≠ st.sW ∨ h ≠ st.sH ∨ st.rawTex = 0 <;>
    simp [hc, initGL_renderCalls]

/-- The observation record of a `render` call: the blur pass writes
`histFBO[ping]` and reads `histTex[1-ping]`, and the output pass reads
`histTex[ping]`, where `ping` is the pre-call value (which `initGL` cannot
have changed). -/
theorem renderFrame_slots (a l : Bool) (st : Engine) (w h : Int) :
    (renderFrame a l st w h).2.cur = st.ping ∧
      (renderFrame a l st w h).2.pre = 1 - st.ping ∧
      (renderFrame a l st w h).2.accumWriteSlot = st.ping ∧
      (renderFrame a l st w h).2.accumReadSlot = 1 - st.ping ∧
      (renderFrame a l st w h).2.outputReadSlot = st.ping := by
  unfold renderFrame
  by_cases hc : w ≠ st.sW ∨ h ≠ st.sH ∨ st.rawTex = 0 <;>
    simp [hc, initGL_ping]

/-- Across the fixed-size run, the ping index in the state before frame `n`
equals `n % 2`. -/
theorem runFrames_ping (w h : Int) (n : Nat) :
    (runFrames w h n).ping = (n : Int) % 2 := by
  induction n with
  | zero => rfl
  | succ k ih =>
    show (renderFrame true true (runFrames w h k) w h).1.ping = _
    rw [renderFrame_ping, ih]
    push_cast
    omega

/-- In every reachable state, the ping index is 0 or 1. -/
theorem runCalls_ping (cs : List Call) :
    (runCalls cs).ping = 0 ∨ (runCalls cs).ping = 1 := by
  induction cs with
  | nil => exact Or.inl rfl
  | cons c rest ih =>
    have h1 : runCalls (c :: rest) =
        (renderFrame c.allocOK c.linkOK (runCalls rest) c.w c.h).1 := rfl
    rw [h1, renderFrame_ping]
    rcases ih with h | h <;> omega

/-- One `render` call keeps both history arrays at two elements. -/
theorem renderFrame_hist_length (a l : Bool) (st : Engine) (w h : Int)
    (ht : st.histTex.length = 2) (hf : st.histFBO.length = 2) :
    (renderFrame a l st w h).1.histTex.length = 2 ∧
      (renderFrame a l st w h).1.histFBO.length = 2 := by
  unfold renderFrame
  by_cases hc : w ≠ st.sW ∨ h ≠ st.sH ∨ st.rawTex = 0
  · simp only [hc]
    unfold initGL
    by_cases hr : st.rawTex ≠ 0 <;> simp [hr]
  · simp [hc, ht, hf]

/-- In every reachable state, both history arrays still have their two
elements. -/
theorem runCalls_hist_length (cs : List Call) :
    (runCalls cs).histTex.length = 2 ∧ (runCalls cs).histFBO.length = 2 := by
  induction cs with
  | nil => exact ⟨rfl, rfl⟩
  | cons c rest ih =>
    have h1 : runCalls (c :: rest) =
        (renderFrame c.allocOK c.linkOK (runCalls rest) c.w c.h).1 := rfl
    rw [h1]
    exact renderFrame_hist_length _ _ _ _ _ ih.1 ih.2

/-! ### Basic lemmas about the simple-blend variant -/

/-- After `initResources`, the first-frame flag is raised, the stored size is
the requested size, the raw texture is a fresh nonzero handle, and the ping
index is untouched. -/
theorem initResources_facts (st : VEngine) (w h : Int) :
    (initResources st w h).isFirstFrame = true ∧
      (initResources st w h).savedWidth = w ∧
      (initResources st w h).savedHeight = h ∧
      (initResources st w h).rawTexture ≠ 0 ∧
      (initResources st w h).pingPongIndex = st.pingPongIndex := by
  unfold initResources
  by_cases hr : st.rawTexture ≠ 0 <;> simp [hr]

/-- Every `render_effect` call leaves the stored size equal to the incoming
size, a nonzero raw texture, and the first-frame flag lowered. -/
theorem render_effect_establishes (st : VEngine) (w h : Int) :
    (render_effect st w h).1.savedWidth = w ∧
      (render_effect st w h).1.savedHeight = h ∧
      (render_effect st w h).1.rawTexture ≠ 0 ∧
      (render_effect st w h).1.isFirstFrame = false := by
  unfold render_effect
  by_cases hc : w ≠ st.savedWidth ∨ h ≠ st.savedHeight ∨ st.rawTexture = 0
  · have hf := initResources_facts st w h
    simp [hc, hf.1, hf.2.1, hf.2.2.1, hf.2.2.2.1]
  · push_neg at hc
    obtain ⟨hw, hh, hr⟩ := hc
    subst hw
    subst hh
    by_cases hff : st.isFirstFrame = true <;> simp [hff, hr]

/-- A `render_effect` call that does not re-initialize and does not see the
first-frame flag takes the blend branch. -/
theorem render_effect_usedBlend (st : VEngine) (w h : Int)
    (hw : st.savedWidth = w) (hh : st.savedHeight = h)
    (hr : st.rawTexture ≠ 0) (hf : st.isFirstFrame = false) :
    (render_effect st w h).2.usedBlend = true ∧
      (render_effect st w h).2.readsHistory = true ∧
      (render_effect st w h).2.passProgram = st.blendProgram := by
  subst hw
  subst hh
  unfold render_effect
  simp [hr, hf]

/-- Size, raw texture, and the lowered first-frame flag persist across any
number of further `render_effect` calls at the same size. -/
theorem vRunFrom_inv (st : VEngine) (w h : Int)
    (hw : st.savedWidth = w) (hh : st.savedHeight = h)
    (hr : st.rawTexture ≠ 0) (hf : st.isFirstFrame = false) :
    ∀ n, (vRunFrom st w h n).savedWidth = w ∧
      (vRunFrom st w h n).savedHeight = h ∧
      (vRunFrom st w h n).rawTexture ≠ 0 ∧
      (vRunFrom st w h n).isFirstFrame = false := by
  intro n
  induction n with
  | zero => exact ⟨hw, hh, hr, hf⟩
  | succ k ih =>
    have h1 : vRunFrom st w h (k + 1) =
        (render_effect (vRunFrom st w h k) w h).1 := rfl
    rw [h1]
    exact render_effect_establishes _ w h

/-- Re-initialization increments the init counter by exactly one. -/
theorem initGL_initCalls (a l : Bool) (st : Engine) (w h : Int) :
    (initGL a l st w h).initCalls = st.initCalls + 1 := by
  unfold initGL
  by_cases hr : st.rawTex ≠ 0 <;> simp [hr]

/-- When resources exist, re-initialization performs exactly one release
cycle before reallocating. -/
theorem initGL_releases (a l : Bool) (st : Engine) (w h : Int)
    (hr : st.rawTex ≠ 0) : (initGL a l st w h).releases = st.releases + 1 := by
  unfold initGL
  simp [hr]

/-- A `render` call whose size check fires runs `initGL` exactly once:
the init counter goes up by one and (when resources existed) so does the
release counter. -/
theorem renderFrame_resize (a l : Bool) (st : Engine) (w h : Int)
    (hc : w ≠ st.sW ∨ h ≠ st.sH ∨ st.rawTex = 0) :
    (renderFrame a l st w h).2.didInit = true ∧
      (renderFrame a l st w h).1.initCalls = st.initCalls + 1 ∧
      (st.rawTex ≠ 0 →
        (renderFrame a l st w h).1.releases = st.releases + 1) := by
  refine ⟨?_, ?_, fun hr => ?_⟩ <;> unfold renderFrame
  · simp [hc]
  · simp [hc, initGL_initCalls]
  · simp [hc, initGL_releases a l st w h hr]

/-- A `render` call whose size check does not fire allocates nothing. -/
theorem renderFrame_stable (a l : Bool) (st : Engine) (w h : Int)
    (hraw : st.rawTex ≠ 0) (hw : st.sW = w) (hh : st.sH = h) :
    (renderFrame a l st w h).1.allocs = st.allocs ∧
      (renderFrame a l st w h).1.initCalls = st.initCalls := by
  subst hw
  subst hh
  unfold renderFrame
  simp [hraw]

/-- A `render_effect` call on a state with the stored size, existing
resources, and the first-frame flag raised takes the plain-draw branch. -/
theorem render_effect_first (st : VEngine) (w h : Int)
    (hw : st.savedWidth = w) (hh : st.savedHeight = h)
    (hr : st.rawTexture ≠ 0) (hf : st.isFirstFrame = true) :
    (render_effect st w h).2.usedBlend = false ∧
      (render_effect st w h).2.readsHistory = false ∧
      (render_effect st w h).2.passProgram = st.drawProgram ∧
      (render_effect st w h).2.passSrcTex = st.rawTexture ∧
      (render_effect st w h).2.writeSlot = st.pingPongIndex ∧
      (render_effect st w h).1.isFirstFrame = false := by
  subst hw
  subst hh
  unfold render_effect
  simp [hr, hf]

/-! ### Theorems for the individual claims -/

/-- C1.  Every invocation of the installed present interceptor queries the
surface's width and height, invokes the render engine if and only if the
queried width is strictly greater than 100 (the render-call counter goes up
by one exactly in that case, and the state is otherwise untouched), and
always calls the original present function and returns its result
unchanged. -/
theorem hook_gates_and_forwards {D S B : Type} (query : D → S → Int × Int)
    (orig : D → S → B) (a l : Bool) (st : Engine) (d : D) (s : S) :
    (hook query orig a l st d s).2 = orig d s ∧
      (hook query orig a l st d s).1.renderCalls =
        st.renderCalls + (if (query d s).1 > 100 then 1 else 0) ∧
      (hook query orig a l st d s).1 =
        (if (query d s).1 > 100
          then (renderFrame a l st (query d s).1 (query d s).2).1 else st) := by
  refine ⟨rfl, ?_, ?_⟩ <;> unfold hook <;>
    by_cases hw : (query d s).1 > 100 <;>
      simp [hw, renderFrame_renderCalls]

/-- C2.  Across `N` consecutive render calls at a stable size from the
initial state, the history slot written by the accumulation pass in frame
`k` is `k % 2`, the ping index flips exactly once per call, and no frame's
accumulation pass reads the slot it writes. -/
theorem ping_alternation (w h : Int) (k : Nat) :
    (frameInfoAt w h k).accumWriteSlot = (k : Int) % 2 ∧
      (runFrames w h (k + 1)).ping = 1 - (runFrames w h k).ping ∧
      (frameInfoAt w h k).accumWriteSlot ≠ (frameInfoAt w h k).accumReadSlot := by
  have hs := renderFrame_slots true true (runFrames w h k) w h
  have hp := runFrames_ping w h k
  refine ⟨?_, ?_, ?_⟩
  · show (renderFrame true true (runFrames w h k) w h).2.accumWriteSlot = _
    rw [hs.2.2.1, hp]
  · show (renderFrame true true (runFrames w h k) w h).1.ping = _
    rw [renderFrame_ping]
  · show (renderFrame true true (runFrames w h k) w h).2.accumWriteSlot ≠
      (renderFrame true true (runFrames w h k) w h).2.accumReadSlot
    rw [hs.2.2.1, hs.2.2.2.1]
    omega

/-- C3 counterexample.  Starting from the initial state, render at 200×100
(ping becomes 1), then render at 300×100: the size change does trigger
re-initialization, but the frame then proceeds writing history slot 1 — the
ping index is not reset to its initial value 0, contrary to the claim. -/
theorem resize_ping_not_reset_cex :
    (renderFrame true true (renderFrame true true engineInit 200 100).1
        300 100).2.didInit = true ∧
      (renderFrame true true (renderFrame true true engineInit 200 100).1
        300 100).2.accumWriteSlot = 1 := by
  decide

/-- C3 amended.  A size change between two consecutive render calls triggers
exactly one full reallocation cycle (one `initGL`: release of raw and both
history targets, then reallocation), but the ping index is not reset: the
second frame writes the history slot selected by the ping value left over
from the first call. -/
theorem resize_one_realloc_keeps_ping (a1 l1 a2 l2 : Bool) (st0 : Engine)
    (w1 h1 w2 h2 : Int) (hne : w2 ≠ w1 ∨ h2 ≠ h1) :
    (renderFrame a2 l2 (renderFrame a1 l1 st0 w1 h1).1 w2 h2).2.didInit
        = true ∧
      (renderFrame a2 l2 (renderFrame a1 l1 st0 w1 h1).1 w2 h2).1.initCalls =
        (renderFrame a1 l1 st0 w1 h1).1.initCalls + 1 ∧
      (renderFrame a2 l2 (renderFrame a1 l1 st0 w1 h1).1 w2 h2).1.releases =
        (renderFrame a1 l1 st0 w1 h1).1.releases + 1 ∧
      (renderFrame a2 l2 (renderFrame a1 l1 st0 w1 h1).1 w2 h2).2.accumWriteSlot =
        (renderFrame a1 l1 st0 w1 h1).1.ping := by
  have he := renderFrame_establishes a1 l1 st0 w1 h1
  have hcond : w2 ≠ (renderFrame a1 l1 st0 w1 h1).1.sW ∨
      h2 ≠ (renderFrame a1 l1 st0 w1 h1).1.sH ∨
      (renderFrame a1 l1 st0 w1 h1).1.rawTex = 0 := by
    rcases hne with hne | hne
    · exact Or.inl (by rw [he.1]; exact hne)
    · exact Or.inr (Or.inl (by rw [he.2.1]; exact hne))
  have hr := renderFrame_resize a2 l2 (renderFrame a1 l1 st0 w1 h1).1 w2 h2 hcond
  have hs := renderFrame_slots a2 l2 (renderFrame a1 l1 st0 w1 h1).1 w2 h2
  exact ⟨hr.1, hr.2.1, hr.2.2 he.2.2, hs.2.2.1⟩

/-- Witness for the amended C3 at concrete inputs 200×100 then 300×100. -/
theorem resize_one_realloc_keeps_ping_witness :
    (renderFrame true true (renderFrame true true engineInit 200 100).1
        300 100).2.didInit = true ∧
      (renderFrame true true (renderFrame true true engineInit 200 100).1
          300 100).1.initCalls =
        (renderFrame true true engineInit 200 100).1.initCalls + 1 ∧
      (renderFrame true true (renderFrame true true engineInit 200 100).1
          300 100).1.releases =
        (renderFrame true true engineInit 200 100).1.releases + 1 ∧
      (renderFrame true true (renderFrame true true engineInit 200 100).1
          300 100).2.accumWriteSlot =
        (renderFrame true true engineInit 200 100).1.ping :=
  resize_one_realloc_keeps_ping true true true true engineInit 200 100 300 100
    (Or.inl (by decide))

/-- C4 counterexample.  Width 200 exceeds the threshold, yet at height 1 the
recomputed internal height is `(int)(1*0.5f) = 0`, violating the claimed
clamp to at least 1 (the code performs no clamping). -/
theorem internal_resolution_cex :
    (100 : Int) < 200 ∧ ¬(1 ≤ (initGL true true engineInit 200 1).iH) := by
  decide

/-- C4 amended.  After (re)initialization with `width > 100`, the internal
size is the truncated half of the surface size (`floor` for nonnegative
inputs): `iW = w / 2 ≥ 1`, and `iH = cHalf h`, which is at least 1 only when
`h ≥ 2`; no clamping is performed. -/
theorem internal_resolution_floor (a l : Bool) (st : Engine) (w h : Int)
    (hw : 100 < w) :
    (initGL a l st w h).iW = w / 2 ∧ (initGL a l st w h).iH = cHalf h ∧
      1 ≤ (initGL a l st w h).iW ∧
      (2 ≤ h → 1 ≤ (initGL a l st w h).iH) := by
  have hiW : (initGL a l st w h).iW = cHalf w := by
    unfold initGL
    by_cases hr : st.rawTex ≠ 0 <;> simp [hr]
  have hiH : (initGL a l st w h).iH = cHalf h := by
    unfold initGL
    by_cases hr : st.rawTex ≠ 0 <;> simp [hr]
  have hw2 : cHalf w = w / 2 := by
    unfold cHalf
    rw [if_pos (by omega)]
  refine ⟨by rw [hiW, hw2], hiH, ?_, fun hh => ?_⟩
  · rw [hiW, hw2]
    omega
  · rw [hiH]
    unfold cHalf
    rw [if_pos (by omega)]
    omega

/-- Witness for the amended C4 at surface 200×100. -/
theorem internal_resolution_floor_witness :
    (initGL true true engineInit 200 100).iW = 200 / 2 ∧
      (initGL true true engineInit 200 100).iH = cHalf 100 ∧
      1 ≤ (initGL true true engineInit 200 100).iW ∧
      (2 ≤ (100 : Int) → 1 ≤ (initGL true true engineInit 200 100).iH) :=
  internal_resolution_floor true true engineInit 200 100 (by decide)

/-- C5.  When buffers exist and the stored size equals the incoming size, a
render call reallocates nothing (allocation and init counters are
unchanged); consequently a second call at an unchanged size never
reallocates, whatever the starting state of the first call was. -/
theorem stable_size_no_realloc (a l : Bool) (st st2 : Engine) (w h : Int)
    (hraw : st.rawTex ≠ 0) (hw : st.sW = w) (hh : st.sH = h) :
    ((renderFrame a l st w h).1.allocs = st.allocs ∧
        (renderFrame a l st w h).1.initCalls = st.initCalls) ∧
      (renderFrame a l (renderFrame a l st2 w h).1 w h).1.allocs =
        (renderFrame a l st2 w h).1.allocs := by
  refine ⟨renderFrame_stable a l st w h hraw hw hh, ?_⟩
  have he := renderFrame_establishes a l st2 w h
  exact (renderFrame_stable a l _ w h he.2.2 he.1 he.2.1).1

/-- Witness for C5: second frame at 200×100 after a first frame from the
initial state allocates nothing. -/
theorem stable_size_no_realloc_witness :
    (((renderFrame true true (renderFrame true true engineInit 200 100).1
            200 100).1.allocs =
          (renderFrame true true engineInit 200 100).1.allocs ∧
        (renderFrame true true (renderFrame true true engineInit 200 100).1
            200 100).1.initCalls =
          (renderFrame true true engineInit 200 100).1.initCalls) ∧
      (renderFrame true true (renderFrame true true engineInit 200 100).1
          200 100).1.allocs =
        (renderFrame true true engineInit 200 100).1.allocs) :=
  stable_size_no_realloc true true (renderFrame true true engineInit 200 100).1
    engineInit 200 100 (by decide) (by decide) (by decide)

/-- C6 (code bug).  With the driver reporting allocation failure (an
incomplete framebuffer) during the first initialization at 1920×1080, the
engine records the incomplete status but never queries it: the accumulation
pass and the output pass into framebuffer 0 are still issued on this frame
and on every subsequent frame — the effect is not skipped and the unmodified
host frame is not presented. -/
theorem no_fbo_failure_detection :
    (renderFrame false true engineInit 1920 1080).1.fbComplete = false ∧
      (renderFrame false true engineInit 1920 1080).2.accumDrawn = true ∧
      (renderFrame false true engineInit 1920 1080).2.outputDrawn = true ∧
      (renderFrame false true (renderFrame false true engineInit 1920 1080).1
        1920 1080).2.outputDrawn = true := by
  decide

/-- C7 counterexample.  Re-initializing with the link oracle reporting
failure still replaces both previously valid program ids with the freshly
created (broken) ones — the previous programs are not left in place. -/
theorem link_validation_cex :
    (initGL true false (renderFrame true true engineInit 200 100).1
        300 100).progLinkOK = false ∧
      (initGL true false (renderFrame true true engineInit 200 100).1
          300 100).progBlur ≠
        (renderFrame true true engineInit 200 100).1.progBlur ∧
      (initGL true false (renderFrame true true engineInit 200 100).1
          300 100).progDraw ≠
        (renderFrame true true engineInit 200 100).1.progDraw := by
  decide

/-- C7 amended.  Re-initialization performs no compile/link validation:
`initGL` unconditionally stores the freshly created program ids as
`progBlur` and `progDraw`, whatever the link outcome was — the ids stored do
not depend on the link oracle, whose value is merely recorded. -/
theorem programs_replaced_unconditionally (a l : Bool) (st : Engine)
    (w h : Int) :
    (initGL a l st w h).progBlur = st.nextId + 3 ∧
      (initGL a l st w h).progDraw = st.nextId + 4 ∧
      (initGL a l st w h).progLinkOK = l := by
  unfold initGL
  by_cases hr : st.rawTex ≠ 0 <;> simp [hr]

/-- C9.  The ping index starts at 0, re-initialization never writes it, the
only mutation is the flip at the end of a render call; hence in every
reachable state it is 0 or 1, the history arrays keep their two elements,
and in every frame the slot indices `cur` and `pre` are in bounds for the
two-element arrays and differ from each other. -/
theorem ping_in_bounds (cs : List Call) (c : Call) :
    engineInit.ping = 0 ∧
      (initGL c.allocOK c.linkOK (runCalls cs) c.w c.h).ping =
        (runCalls cs).ping ∧
      (renderFrame c.allocOK c.linkOK (runCalls cs) c.w c.h).1.ping =
        1 - (runCalls cs).ping ∧
      ((runCalls cs).ping = 0 ∨ (runCalls cs).ping = 1) ∧
      (runCalls cs).histTex.length = 2 ∧
      (runCalls cs).histFBO.length = 2 ∧
      (0 ≤ (renderFrame c.allocOK c.linkOK (runCalls cs) c.w c.h).2.cur ∧
        (renderFrame c.allocOK c.linkOK (runCalls cs) c.w c.h).2.cur < 2) ∧
      (0 ≤ (renderFrame c.allocOK c.linkOK (runCalls cs) c.w c.h).2.pre ∧
        (renderFrame c.allocOK c.linkOK (runCalls cs) c.w c.h).2.pre < 2) ∧
      (renderFrame c.allocOK c.linkOK (runCalls cs) c.w c.h).2.cur ≠
        (renderFrame c.allocOK c.linkOK (runCalls cs) c.w c.h).2.pre := by
  have hp := runCalls_ping cs
  have hl := runCalls_hist_length cs
  have hs := renderFrame_slots c.allocOK c.linkOK (runCalls cs) c.w c.h
  rw [hs.1, hs.2.1]
  rcases hp with h | h <;>
    exact ⟨rfl, initGL_ping _ _ _ _ _,
      renderFrame_ping _ _ _ _ _, by omega, hl.1, hl.2, by omega, by omega,
      by omega⟩

/-- C10.  In the simple-blend variant, re-initialization raises the
first-frame flag; the first render call after it bypasses the blend program:
it writes the downscaled current frame (`rawTexture`) into the current
history slot with the plain draw program, reading no history, and lowers the
flag; every subsequent render call at that size uses the blend program. -/
theorem first_frame_bypasses_blend (st : VEngine) (w h : Int) (n : Nat) :
    (initResources st w h).isFirstFrame = true ∧
      (render_effect (initResources st w h) w h).2.usedBlend = false ∧
      (render_effect (initResources st w h) w h).2.passProgram =
        (initResources st w h).drawProgram ∧
      (render_effect (initResources st w h) w h).2.readsHistory = false ∧
      (render_effect (initResources st w h) w h).2.passSrcTex =
        (initResources st w h).rawTexture ∧
      (render_effect (initResources st w h) w h).2.writeSlot =
        (initResources st w h).pingPongIndex ∧
      (render_effect (initResources st w h) w h).1.isFirstFrame = false ∧
      (render_effect
          (vRunFrom (render_effect (initResources st w h) w h).1 w h n)
          w h).2.usedBlend = true := by
  have hf := initResources_facts st w h
  have h1 := render_effect_first (initResources st w h) w h hf.2.1 hf.2.2.1
    hf.2.2.2.1 hf.1
  have he := render_effect_establishes (initResources st w h) w h
  have hinv := vRunFrom_inv (render_effect (initResources st w h) w h).1 w h
    he.1 he.2.1 he.2.2.1 he.2.2.2 n
  have hb := render_effect_usedBlend
    (vRunFrom (render_effect (initResources st w h) w h).1 w h n) w h
    hinv.1 hinv.2.1 hinv.2.2.1 hinv.2.2.2
  exact ⟨hf.1, h1.1, h1.2.2.1, h1.2.1, h1.2.2.2.1, h1.2.2.2.2.1,
    h1.2.2.2.2.2, hb.1⟩

/-- C8.  On a constant-color input (all five sampled texels equal, hence zero
local contrast) the sharpening step of the output pass is the identity: the
sharpened luma equals the input luma and the color after the step equals the
input color, for any sqrt oracle that maps `[0,1]` into `[0,1]` (as the GLSL
`sqrt` does). -/
theorem sharpen_identity_on_flat (sqrtQ : ℚ → ℚ)
    (hs : ∀ q : ℚ, 0 ≤ q → q ≤ 1 → 0 ≤ sqrtQ q ∧ sqrtQ q ≤ 1) (col : Vec4) :
    sharpLumaOf sqrtQ (lumaOf col) (lumaOf col) (lumaOf col) (lumaOf col)
        (lumaOf col) = lumaOf col ∧
      sharpenStep sqrtQ col col col col col = col := by
  have key : ∀ lC : ℚ, sharpLumaOf sqrtQ lC lC lC lC lC = lC := by
    intro lC
    have hq0 : (0 : ℚ) ≤ glslClamp (lC / (1 - lC + 1/1000)) 0 1 :=
      le_min (le_max_right _ _) (by norm_num)
    have hq1 : glslClamp (lC / (1 - lC + 1/1000)) 0 1 ≤ 1 := min_le_right _ _
    obtain ⟨ha0, ha1⟩ := hs _ hq0 hq1
    set amt := sqrtQ (glslClamp (lC / (1 - lC + 1/1000)) 0 1) with hamt
    have hd : glslMix 8 5 (amt * (88/100)) = 8 - 3 * (amt * (88/100)) := by
      unfold glslMix
      ring
    have ht0 : 0 ≤ amt * (88/100) := mul_nonneg ha0 (by norm_num)
    have ht1 : amt * (88/100) ≤ 88/100 := by nlinarith
    have hdpos : (0 : ℚ) < glslMix 8 5 (amt * (88/100)) := by
      rw [hd]
      linarith
    have hd4 : (4 : ℚ) < glslMix 8 5 (amt * (88/100)) := by
      rw [hd]
      linarith
    set d := glslMix 8 5 (amt * (88/100)) with hdd
    have hdne : d ≠ 0 := ne_of_gt hdpos
    have hne : (1 : ℚ) + 4 * (-1 / d) ≠ 0 := by
      have hcalc : (1 : ℚ) + 4 * (-1 / d) = (d - 4) / d := by
        field_simp
        ring
      rw [hcalc]
      exact div_ne_zero (by linarith) hdne
    show (let mx := max lC (max (max lC lC) (max lC lC));
          let mn := min lC (min (min lC lC) (min lC lC));
          let amt2 := sqrtQ (glslClamp (mn / (1 - mx + 1/1000)) 0 1);
          let peak := -1 / glslMix 8 5 (amt2 * (88/100));
          let sharpLuma := lC + (lC + lC + lC + lC) * peak;
          sharpLuma / (1 + 4 * peak)) = lC
    simp only [max_self, min_self]
    rw [← hamt, ← hdd]
    have hnum : lC + (lC + lC + lC + lC) * (-1 / d) =
        lC * (1 + 4 * (-1 / d)) := by
      ring
    rw [hnum]
    exact mul_div_cancel_right₀ lC hne
  refine ⟨key _, ?_⟩
  simp only [sharpenStep]
  rw [key]
  cases col
  simp

/-- Witness for C8: the identity map is a valid sqrt oracle on `[0,1]`, and
the flat mid-gray sample is returned unchanged. -/
theorem sharpen_identity_on_flat_witness :
    sharpLumaOf (fun q => q) (lumaOf ⟨1/2, 1/2, 1/2, 1⟩)
        (lumaOf ⟨1/2, 1/2, 1/2, 1⟩) (lumaOf ⟨1/2, 1/2, 1/2, 1⟩)
        (lumaOf ⟨1/2, 1/2, 1/2, 1⟩) (lumaOf ⟨1/2, 1/2, 1/2, 1⟩) =
      lumaOf ⟨1/2, 1/2, 1/2, 1⟩ ∧
      sharpenStep (fun q => q) ⟨1/2, 1/2, 1/2, 1⟩ ⟨1/2, 1/2, 1/2, 1⟩
        ⟨1/2, 1/2, 1/2, 1⟩ ⟨1/2, 1/2, 1/2, 1⟩ ⟨1/2, 1/2, 1/2, 1⟩ =
      ⟨1/2, 1/2, 1/2, 1⟩ :=
  sharpen_identity_on_flat (fun q => q) (fun _ h1 h2 => ⟨h1, h2⟩)
    ⟨1/2, 1/2, 1/2, 1⟩

end MotionBlur
